import Mathlib

/-!
Verification of the ContextPilot project scanner (src/pilot/main.py).

The Python source is shallowly embedded: paths are lists of path segments
relative to the project root, the filesystem is an inductive tree, Python
strings are Lean strings, and Python exceptions are modelled with Except.
String primitives (comparison, lower-casing, strip) are re-implemented over
character lists with Python semantics so that every definition is executable
by the kernel.
-/

/-! ## Definitions: the shallow embedding of the source -/

/-- Whitespace characters removed by the Python str.strip() method
(ASCII range, as used by the source). -/
def isPyWs (c : Char) : Bool :=
  c = ' ' || c = '\t' || c = '\n' || c = '\x0d' || c = '\x0b' || c = '\x0c'

/-- Python str.strip(): remove leading and trailing whitespace. -/
def pyStrip (s : String) : String :=
  ⟨((s.data.dropWhile isPyWs).reverse.dropWhile isPyWs).reverse⟩

/-- Python str.rstrip(sep) for a single character. -/
def pyRstripChar (sep : Char) (s : String) : String :=
  ⟨(s.data.reverse.dropWhile (fun c => c = sep)).reverse⟩

/-- ASCII lower-casing of one character, as Python str.lower() does on
ASCII input (the only case exercised by the scanner). -/
def lowerChar (c : Char) : Char :=
  if 'A' ≤ c && c ≤ 'Z' then Char.ofNat (c.toNat + 32) else c

/-- Python str.lower() restricted to ASCII. -/
def pyLower (s : String) : String := ⟨s.data.map lowerChar⟩

/-- Lexicographic comparison of character lists by code point: the order
Python uses to compare strings. -/
def charsLt : List Char → List Char → Bool
  | _, [] => false
  | [], _ :: _ => true
  | c :: cs, d :: ds => c < d || (c = d && charsLt cs ds)

/-- Python string strict comparison a < b. -/
def strLt (a b : String) : Bool := charsLt a.data b.data

/-- Python string comparison a <= b. -/
def strLe (a b : String) : Bool := !strLt b a

/-- Python str.startswith for a single-character test. -/
def pyStartsWith (s : String) (c : Char) : Bool :=
  match s.data with
  | [] => false
  | d :: _ => d = c

/-- Python str.endswith(suffix). -/
def pyEndsWith (s suffixStr : String) : Bool :=
  suffixStr.data.isSuffixOf s.data

/-- Split a character list on a separator character (Python str.split(sep)). -/
def splitCharsOn (sep : Char) : List Char → List (List Char)
  | [] => [[]]
  | c :: cs =>
    match splitCharsOn sep cs with
    | [] => [[]]
    | seg :: rest => if c = sep then [] :: seg :: rest else (c :: seg) :: rest

/-- Split a string on the path separator. -/
def splitSlash (s : String) : List String :=
  (splitCharsOn '/' s.data).map (fun l => ⟨l⟩)

/-- Join path segments with the path separator (how pathlib renders a
relative POSIX path). -/
def joinSlash : List String → String
  | [] => ""
  | [s] => s
  | s :: rest => s ++ "/" ++ joinSlash rest

/-- Python sep.join(list). -/
def pyJoin (sep : String) : List String → String
  | [] => ""
  | [s] => s
  | s :: rest => s ++ sep ++ pyJoin sep rest

/-- DEFAULT_IGNORE_DIRS from the source configuration block. -/
def DEFAULT_IGNORE_DIRS : List String :=
  [".git", "venv", ".venv", "__pycache__", ".pytest_cache", ".ruff_cache", "build",
    "dist", ".eggs"]

/-- DEFAULT_IGNORE_FILES from the source configuration block. -/
def DEFAULT_IGNORE_FILES : List String := ["pilot.py", "prompt.txt"]

/-- The pathlib name of root / d: joining drops empty and single-dot
segments, and the name is the last remaining segment; joining the empty
string leaves root itself, whose name is rootName. -/
def pathJoinName (rootName : String) (d : String) : String :=
  ((splitSlash d).filter (fun seg => seg ≠ "" && seg ≠ ".")).getLastD rootName

/-- The pathlib name of a relative path given as segments (empty for the
root-relative path, whose name is the empty string). -/
def relName (relParts : List String) : String := relParts.getLastD ""

/-- The dir-name half of _is_ignored: some segment of the relative path is
the name of an ignore_dirs entry. -/
def is_dir_ignored (relParts : List String) (rootName : String)
    (ignore_dirs : List String) : Bool :=
  relParts.any (fun part => (ignore_dirs.map (pathJoinName rootName)).contains part)

/-- The file-name half of _is_ignored: the final component equals the name
of an ignore_files entry. -/
def is_file_ignored (relParts : List String) (rootName : String)
    (ignore_files : List String) : Bool :=
  (ignore_files.map (pathJoinName rootName)).contains (relName relParts)

/-- _is_ignored from the source: dir-name segment match or file-name match. -/
def is_ignored (relParts : List String) (rootName : String)
    (ignore_dirs ignore_files : List String) : Bool :=
  is_dir_ignored relParts rootName ignore_dirs || is_file_ignored relParts rootName ignore_files

/-- _in_scope_dir from the source. -/
def in_scope_dir (relParts : List String) (only_from : Option (List String)) : Bool :=
  match only_from with
  | none => true
  | some l =>
    if relParts = [] then true
    else l.contains (relParts.headD "")

/-- load_gitignore_patterns from the source, over the lines of the
.gitignore file: strip each line, keep non-empty non-comment lines, and
remove trailing slashes. -/
def load_gitignore_patterns (lines : List String) : List String :=
  ((lines.map pyStrip).filter (fun line => line ≠ "" && !pyStartsWith line '#')).map
    (pyRstripChar '/')

/-- A filesystem tree: regular files and directories. A directory carries a
readable flag; listing an unreadable directory raises PermissionError in
Python. Children appear in the order the OS returns them from iterdir and
scandir. -/
inductive FSEntry where
  | file (name : String)
  | dir (name : String) (readable : Bool) (children : List FSEntry)

def entryName : FSEntry → String
  | .file n => n
  | .dir n _ _ => n

/-- Path.is_file() on our model. -/
def entryIsFile : FSEntry → Bool
  | .file _ => true
  | .dir _ _ _ => false

mutual
def fsSize : FSEntry → Nat
  | .file _ => 1
  | .dir _ _ cs => 1 + fsSizeList cs

def fsSizeList : List FSEntry → Nat
  | [] => 0
  | e :: es => fsSize e + fsSizeList es
end

/-- The sort key comparison of build_tree: the tuple
(x.is_file(), x.name.lower()) under the Python tuple and string orders. -/
def entryLe (a b : FSEntry) : Prop :=
  (entryIsFile a = false ∧ entryIsFile b = true) ∨
    (entryIsFile a = entryIsFile b ∧ strLe (pyLower (entryName a)) (pyLower (entryName b)) = true)

instance : DecidableRel entryLe := fun a b =>
  inferInstanceAs (Decidable ((entryIsFile a = false ∧ entryIsFile b = true) ∨
    (entryIsFile a = entryIsFile b ∧
      strLe (pyLower (entryName a)) (pyLower (entryName b)) = true)))

/-- The filter applied to a sorted directory listing in build_tree line 98:
keep entries that are not ignored and are in scope. -/
def keepEntry (rootName : String) (ignore_dirs ignore_files : List String)
    (only_from : Option (List String)) (relParts : List String) (e : FSEntry) : Bool :=
  !is_ignored (relParts ++ [entryName e]) rootName ignore_dirs ignore_files &&
    in_scope_dir (relParts ++ [entryName e]) only_from

/-- The entries of one directory exactly as build_tree lists them: children
sorted by (is_file, name.lower()) with a stable sort, then filtered. -/
def sortedFilteredChildren (rootName : String) (ignore_dirs ignore_files : List String)
    (only_from : Option (List String)) (relParts : List String)
    (children : List FSEntry) : List FSEntry :=
  (List.insertionSort entryLe children).filter
    (keepEntry rootName ignore_dirs ignore_files only_from relParts)

/-- The recursive walk of build_tree. The result records, for each rendered
line, the relative path of the entry it belongs to together with the line
text; build_tree keeps only the text. A directory whose listing raises
PermissionError propagates the exception (there is no handler in the
source), modelled by Except.error. The fuel argument only bounds the
recursion depth; build_tree supplies a bound that is never reached on the
walked tree (fuel exhaustion also reports Except.error). -/
def renderListF (rootName : String) (ignore_dirs ignore_files : List String)
    (only_from : Option (List String)) :
    Nat → List String → String → List FSEntry → Except Unit (List (List String × String))
  | 0, _, _, _ => .error ()
  | _ + 1, _, _, [] => .ok []
  | fuel + 1, relParts, pfx, .file n :: rest => do
    let tail ← renderListF rootName ignore_dirs ignore_files only_from fuel relParts pfx rest
    .ok ((relParts ++ [n], pfx ++ (if rest.isEmpty then "└── " else "├── ") ++ n) :: tail)
  | _ + 1, _, _, .dir _ false _ :: _ => .error ()
  | fuel + 1, relParts, pfx, .dir n true children :: rest => do
    let sub ← renderListF rootName ignore_dirs ignore_files only_from fuel (relParts ++ [n])
      (pfx ++ (if rest.isEmpty then "    " else "│   "))
      (sortedFilteredChildren rootName ignore_dirs ignore_files only_from
        (relParts ++ [n]) children)
    let tail ← renderListF rootName ignore_dirs ignore_files only_from fuel relParts pfx rest
    .ok ((relParts ++ [n], pfx ++ (if rest.isEmpty then "└── " else "├── ") ++ n) :: (sub ++ tail))

/-- build_tree from the source: the line "." followed by the rendered
entries, joined with newlines. Walking the root lists it first, so an
unreadable root also raises. -/
def build_tree (root : FSEntry) (ignore_dirs ignore_files : List String)
    (only_from : Option (List String)) : Except Unit String :=
  match root with
  | .file _ => .error ()
  | .dir rootName readable children =>
    if readable then do
      let entries ← renderListF rootName ignore_dirs ignore_files only_from
        (fsSize root) [] ""
        (sortedFilteredChildren rootName ignore_dirs ignore_files only_from [] children)
      .ok (pyJoin "\n" ("." :: entries.map Prod.snd))
    else .error ()

mutual
/-- os.walk(root) with topdown=True and onerror=None: yield the triple
(dirpath, dirnames, filenames) for each readable directory, then recurse
into each subdirectory in listing order; a directory whose scandir raises
an OSError yields nothing and its subtree is skipped. Paths are relative
to root (root itself is the empty list). -/
def osWalk (path : List String) : FSEntry → List (List String × List String × List String)
  | .file _ => []
  | .dir _ readable children =>
    if readable then
      (path, (children.filter (fun c => !entryIsFile c)).map entryName,
        (children.filter entryIsFile).map entryName) :: osWalkList path children
    else []

def osWalkList (path : List String) : List FSEntry → List (List String × List String × List String)
  | [] => []
  | e :: es => osWalk (path ++ [entryName e]) e ++ osWalkList path es
end

/-- str(root / parts): the absolute path string of a collected file
(used to compare the Path parts order with the path-string order). -/
def renderAbs (rootStr : String) (parts : List String) : String :=
  rootStr ++ "/" ++ joinSlash parts

/-- The pathlib parts tuple of a path string: a leading slash becomes the
root anchor part, empty and single-dot segments are dropped. -/
def pathlibParts (s : String) : List String :=
  let segs := (splitSlash s).filter (fun seg => seg ≠ "" && seg ≠ ".")
  if pyStartsWith s '/' then "/" :: segs else segs

/-- Python list comparison a < b for lists of strings, lexicographic with
per-element string comparison: the comparison CPython performs between the
case-normalized parts lists of two Path objects (normcase is the identity
on POSIX). -/
def partsLt : List String → List String → Bool
  | _, [] => false
  | [], _ :: _ => true
  | a :: as, b :: bs => strLt a b || (a = b && partsLt as bs)

/-- Python list comparison a <= b. -/
def partsLe (a b : List String) : Bool := !partsLt b a

/-- The Path order on collected files: PurePath.__lt__ compares the
case-normalized parts lists of the two absolute paths. -/
def pathLeP (rootStr : String) (a b : List String) : Prop :=
  partsLe (pathlibParts rootStr ++ a) (pathlibParts rootStr ++ b) = true

instance (rootStr : String) : DecidableRel (pathLeP rootStr) := fun a b =>
  inferInstanceAs
    (Decidable (partsLe (pathlibParts rootStr ++ a) (pathlibParts rootStr ++ b) = true))

/-- One os.walk step of collect_project_files: skip ignored or out-of-scope
directories, otherwise append the extension-matching non-ignored files of
this directory. -/
def collectStep (rootName : String) (ignore_dirs ignore_files : List String)
    (only_from : Option (List String)) (extensions : List String)
    (acc : List (List String)) (t : List String × List String × List String) :
    List (List String) :=
  if is_ignored t.1 rootName ignore_dirs ignore_files || !in_scope_dir t.1 only_from then acc
  else
    acc ++ ((t.2.2.filter (fun fname =>
      extensions.any (fun ext => pyEndsWith fname ext) &&
        !is_ignored (t.1 ++ [fname]) rootName ignore_dirs ignore_files)).map
      (fun fname => t.1 ++ [fname]))

/-- collect_project_files from the source: walk the whole tree with
os.walk, gather matching files, and return them sorted as Python sorted
orders Path objects, by the case-normalized parts list of the absolute
path. -/
def collect_project_files (rootStr : String) (root : FSEntry)
    (ignore_dirs ignore_files : List String) (only_from : Option (List String))
    (extensions : List String) : List (List String) :=
  List.insertionSort (pathLeP rootStr)
    ((osWalk [] root).foldl
      (collectStep (entryName root) ignore_dirs ignore_files only_from extensions) [])

/-- Modelled from the spec: the external tiktoken tokenizer interface.
encoding_for_model returns the encoding registered for a model name, or
raises KeyError (modelled as none) for an unrecognized name;
defaultEncoding is the known-good cl100k_base encoding the source falls
back to. A byte-pair encoding maps the empty string to the empty token
list, which the structure records as an interface invariant. -/
structure Tokenizer where
  encodingFor : String → Option (String → List Nat)
  defaultEncoding : String → List Nat
  default_empty : defaultEncoding "" = []
  registry_empty : ∀ m e, encodingFor m = some e → e "" = []

/-- int(n * 1.28): float multiplication and truncation toward zero. Exact
as n * 32 / 25 in natural division for every realistic n, because the
fractional parts of n * 1.28 are multiples of 0.04, far larger than the
floating-point error. -/
def intFactor (n : Nat) : Nat := n * 32 / 25

/-- count_tokens from the source: look up the encoding for the model,
falling back to the default on KeyError, and scale the token count. -/
def count_tokens (tk : Tokenizer) (text : String) (model : String) : Nat :=
  intFactor (((tk.encodingFor model).getD tk.defaultEncoding) text).length

/-- Result of fpath.read_text(encoding="utf-8") on one file.
UnicodeDecodeError is raised by undecodable content; FileNotFoundError and
PermissionError are both subclasses of OSError (the IOError alias). -/
inductive ReadResult where
  | ok (content : String)
  | unicodeError
  | fileNotFound
  | permissionError
deriving DecidableEq

/-- A file handed to a prompt builder: its path relative to root, whether
it is a directory, and what reading it yields. -/
structure FileInput where
  parts : List String
  isDir : Bool
  read : ReadResult

def readFails : ReadResult → Bool
  | .ok _ => false
  | _ => true

def FC_A : String := String.join [
  "[PROMPT TOPIC OR THEME]: Optimized Prompt for Full-Context Software Development Tasks\n\nC - CONTEXT:\n",
  "\n",
  "Background: You are about to perform a task within an existing software project. You have been provided with the complete and unabridged context of the current project state, including the full directory structure and the content of every relevant file. This is equivalent to having the project open in your IDE. Your goal is to execute the assigned task with surgical precision, adhering to the highest standards of software engineering.\n",
  "\n",
  "Source Material/Knowledge Base: Your entire universe of knowledge for this task is the project context provided below. You must base all your decisions and code on this specific context. Do not assume the existence of functions, variables, or files not listed.\n",
  "\n**Project Folder Structure:**\n```\n"]

def FC_B : String := String.join [
  "\n```\n\n**Complete File Contents:**\n"]

def FC_C : String := String.join [
  "\n\n",
  "Objective: The objective is to generate a complete, correct, and production-ready implementation for the specified task, following a rigorous planning and execution protocol.\n",
  "\n",
  "Stakes/Importance: The output will be treated as a pull request from a senior engineer. High-quality work will be merged directly into the main branch. Low-quality work, bugs, or deviations from the plan will break the build and delay the project. Meticulous attention to detail is paramount.\n",
  "\nKey Problem Statement: "]

def FC_D : String := String.join [
  "\n\n---\n\nR - ROLE:\n\n",
  "Persona: You are a \"10x\" Principal Software Engineer & Systems Architect. You are not just a coder; you are a pragmatic and meticulous craftsman. Your code is clean, efficient, and easy for other expert engineers to understand and maintain. You have a deep understanding of software architecture, design patterns, and the importance of writing robust, scalable solutions.\n",
  "\nCore Competencies:\n",
  "1.  **Systems-Level Thinking:** You understand how a change in one file impacts the entire system.\n",
  "2.  **Pragmatic Problem Solving:** You choose the simplest, cleanest solution that robustly solves the problem.\n",
  "3.  **Clean Code Artistry:** You adhere strictly to principles like SOLID, DRY, and YAGNI (You Ain\x27t Gonna Need It).\n",
  "4.  **Flawless Execution:** You write complete, production-ready code without placeholders or shortcuts.\n",
  "5.  **Crystal-Clear Communication:** Your plans and reasoning are unambiguous and easy for other engineers to follow.\n",
  "\n",
  "Mindset/Tone: Your tone is professional, confident, and authoritative. You are a senior peer collaborating with other experts. Your language is precise and economical. There is no conversational filler. You communicate through well-structured plans and perfect code.\n",
  "\nGuiding Principles/Mental Models:\n",
  "-   **First, understand completely.** Do not start planning until the task is 100% clear.\n",
  "-   **Plan meticulously before acting.** A detailed plan prevents errors in execution.\n",
  "-   **The existing code style is the law.** You will infer and perfectly match the project\x27s existing coding style, conventions, and architectural patterns.\n",
  "\n",
  "Epistemological Stance: You are a strict code-first empiricist. The provided files are the ground truth. You make logical inferences based only on the provided context. If a required detail (e.g., a specific configuration value) is missing from the context, you must ask for it.\n",
  "\n---\n\nA - ACTION:\n\n**Phase 1: Clarification & Planning**\n\n",
  "Your first task is to analyze the \x27Key Problem Statement\x27 and the provided \x27Source Material\x27.\n\n",
  "1.  **Analyze for Ambiguity:** Read the task. Is every requirement, goal, and constraint 100% clear? Do you have all the information needed from the provided files?\n",
  "\n2.  **Choose Your Path:**\n",
  "    -   **If the task is AMBIGUOUS or LACKS information,** you MUST ask targeted, numbered clarifying questions. Do not proceed until you get answers. Once all questions are resolved, proceed to the next step.\n",
  "    -   **If and only if the task is PERFECTLY CLEAR,** you will skip the questions and immediately generate the implementation plan as your entire response. Do not write any other text.\n",
  "\n**The Implementation Plan Format:**\nThe plan must contain:\n",
  "-   **High-Level Summary:** A brief, 1-2 sentence overview of the proposed solution.\n",
  "-   **Implementation Steps:** A numbered list of every action. Each step must specify:\n",
  "    -   **File(s):** The full path to the file(s) that will be created or modified.\n",
  "    -   **Action:** A concise description of the change.\n",
  "    -   **Reasoning:** Justification for the step.\n\n**Phase 2: The Execution**\n\n",
  "*Do not begin this phase until your plan is presented and you are instructed to proceed.* Once approved, you will provide all the code changes in a single response, following the plan precisely. For each file modification, you *must* use this rigid format:\n",
  "\n**File:** `path/to/the/file.ext`\n**Action:** A short description of what is being done.\n",
  "```[language]\n// The complete, final, and full code block goes here.\n```\n",
  "**Reasoning:** A brief sentence connecting this change to your plan.\n\n---\n\nF - FORMAT:\n\n",
  "Output Structure:\n- All responses must be in Markdown.\n",
  "- The Plan (Phase 1) must use H3 (`###`) for headings and a numbered list.\n",
  "- The Execution (Phase 2) must strictly follow the `File:`, `Action:`, Code Block, `Reasoning:` structure, separated by horizontal rules (`---`).\n",
  "\nT - TARGET AUDIENCE:\n\n",
  "Recipient: The output is for a Senior Software Engineer conducting a peer code review. They are an expert in the language, familiar with the codebase, and value clarity and correctness.\n",
  "\nE - EXEMPLARS:\n\n**High-Quality Example (Execution Phase):**\n```\n",
  "**File:** `src/utils/calculator.py`\n",
  "**Action:** Replacing the function `add` to include type hinting and a docstring.\n```python\n",
  "def add(a: int, b: int) -> int:\n    \"\"\"Adds two integers together.\"\"\"\n    return a + b\n```\n",
  "**Reasoning:** This implements Step 2 of the plan, improving code clarity and robustness.\n```\n\n",
  "R - RESTRICTIONS:\n\nNegative Constraints:\n",
  "- **DO NOT** use diff formats (`+` or `-`). All code blocks must be complete and final.\n",
  "- **DO NOT** use placeholders like `// TODO`. The code must be production-ready.\n",
  "- **DO NOT** engage in conversational filler (e.g., \"Here is the plan...\").\n\n",
  "Scope Limitation: Only modify files related to the task. Do not refactor unrelated code."]

def DISC_A : String := String.join [
  "# Your Task\n"]

def DISC_B : String := String.join [
  "\n\n",
  "You are a world-class Principal Software Engineer known for your meticulous analysis and problem-solving skills. You are tasked with solving a problem in a large, unfamiliar codebase. You must clarify all requirements before gathering information.\n",
  "\n# Project Folder Structure\n```\n"]

def DISC_C : String := String.join [
  "\n```\n\n---\n## Your Mission (Read Carefully)\n\n",
  "Your mission is to clarify the task, gather sufficient information to create a flawless plan, and only then, execute that plan. You must follow the phases below without deviation.\n",
  "\n**Phase 0: Information Gathering (Your first and only action)**\n",
  "1.  **Analyze the Structure:** Review the folder structure to form hypotheses about the project\x27s architecture. Identify potential files of interest.\n",
  "2.  **Iterative Reconnaissance:** Embody your role as a Principal Engineer. Your first action is a broad reconnaissance: based on the task and file tree, request the initial collection of key files you need for a foundational understanding. It is expected that this first request will be for multiple files.\n",
  "    After reviewing these files, you must continue this process, making additional, more targeted requests in subsequent turns until you are confident you have all the information needed to solve the task.\n",
  "    **Command Syntax:**\n    `pilot files path/to/file_a.py path/to/file_b.py ...`\n",
  "3.  **Never Assume:** As a meticulous engineer, you must verify every assumption. If you are unsure about something, request the relevant file. Do not proceed with incomplete information.\n",
  "4.  **Signal Completion:** Once you have requested all the files you need, you must start your *next* response with the line `✅ I have enough information.` and then immediately begin Phase 1 in the same message.\n",
  "\n**Phase 1: Task Clarification**\n",
  "After gathering files, analyze all the information against the task. Your response depends on your findings:\n",
  "-   **If the task is unclear:** Ask specific, context-aware questions. Continue this process until you are satisfied.\n",
  "-   **If the task is perfectly clear:** Start your response with the line `✅ No questions left.` and, in the same message, immediately proceed with **Phase 2: The Plan**.\n",
  "\n**Phase 2: The Plan**\n\n",
  "Immediately provide a comprehensive, step-by-step plan. A perfect plan includes:\n",
  "    -   A **High-Level Summary** of your proposed solution.\n",
  "    -   A numbered list of **Implementation Steps**. For each step, you must specify:\n",
  "        -   The **Goal** of the step.\n",
  "        -   The specific **File(s)** that will be created or modified.\n",
  "        -   A brief **Reasoning** for why this step is necessary.\n",
  "    **Do not write any code in the planning phase.**\n\n**Phase 3: The Execution**\n\n",
  "5.  **Execute the Plan:** After presenting the plan, you will execute it. You must address each step from your plan one by one. For every file modification, you *must* use the following rigid format:\n",
  "\n**File:** `path/to/the/file.ext`\n",
  "**Action:** [Create file | Replace function `function_name` | Add after line X]\n```python\n",
  "// ... your complete, final code block goes here ...\n```\n",
  "**Reasoning:** [A brief sentence connecting this code to the plan.]\n\n---\n\n",
  "### GOLDEN RULES (Non-Negotiable)\n",
  "1.  **Gather, Plan, then Code:** You must follow the phases in order.\n",
  "2.  **No Diffs, No Patches:** All code blocks must be complete and final. Never use `+`/`-` prefixes.\n",
  "3.  **Adhere to the Format:** The `File:`, `Action:`, `Code Block`, `Reasoning:` format is mandatory for all code changes during execution."]

def GIT_A : String := String.join [
  "## Full Git Diff\n```diff\n"]

def GIT_B : String := String.join [
  "\n```\n\n---\n## Instructions\n\n",
  "Analyze the git diff and suggest one or more commit messages in the Conventional Commits format. Group related file changes into logical commits. Respond **only** with the commit plan in this exact format:\n",
  "\nCommit 1:\nfiles: path/to/file1.py path/to/file2.py\n",
  "message: \"feat: add user authentication endpoint\"\n\nCommit 2:\nfiles: path/to/docs.md\n",
  "message: \"docs: update API documentation for auth\"\n"]

/-- The file-content blocks of make_full_context_prompt: directories are
skipped, and any read failure is caught by the except
(UnicodeDecodeError, IOError) handler and skipped with continue, so no
failure escapes and no placeholder is emitted. -/
def fullContextBlocks : List FileInput → List String
  | [] => []
  | f :: rest =>
    if f.isDir then fullContextBlocks rest
    else
      match f.read with
      | .ok c =>
        ("#### File: `" ++ joinSlash f.parts ++ "`\n```\n" ++ pyStrip c ++ "\n```")
          :: fullContextBlocks rest
      | _ => fullContextBlocks rest

/-- make_full_context_prompt from the source: the C.R.A.F.T.E.R. template
with the tree, the joined file blocks, and the task interpolated. -/
def make_full_context_prompt (task tree : String) (files : List FileInput) : String :=
  FC_A ++ tree ++ FC_B ++ pyJoin "\n\n" (fullContextBlocks files) ++ FC_C ++ task ++ FC_D

/-- make_discovery_prompt from the source. -/
def make_discovery_prompt (task tree : String) : String :=
  DISC_A ++ task ++ DISC_B ++ tree ++ DISC_C

/-- One iteration of the make_files_prompt loop: a content block on
success, a placeholder block for UnicodeDecodeError or FileNotFoundError,
and an uncaught exception (Except.error) for PermissionError, which the
except clause does not list. -/
def filesBlock (p : List String) (r : ReadResult) : Except Unit String :=
  match r with
  | .ok c => .ok ("## `" ++ joinSlash p ++ "`:\n```\n" ++ pyStrip c ++ "\n```")
  | .unicodeError => .ok ("## `" ++ joinSlash p ++ "`:\n```\nError: Could not read this file.\n```")
  | .fileNotFound => .ok ("## `" ++ joinSlash p ++ "`:\n```\nError: Could not read this file.\n```")
  | .permissionError => .error ()

/-- The loop of make_files_prompt: per-file blocks accumulated in order,
an uncaught exception aborting the rest of the loop. -/
def filesBlocksE : List (List String × ReadResult) → Except Unit (List String)
  | [] => .ok []
  | f :: rest => do
    let b ← filesBlock f.1 f.2
    let bs ← filesBlocksE rest
    .ok (b :: bs)

/-- make_files_prompt from the source: build per-file blocks, then join
them; an uncaught exception in the loop aborts the whole call. -/
def make_files_prompt (files : List (List String × ReadResult)) : Except Unit String := do
  let blocks ← filesBlocksE files
  .ok (pyJoin "\n\n" blocks)

/-- make_git_prompt from the source, with the two _run_git results (each
already empty on a failed git invocation) passed as inputs: staged diff
plus, unless staged_only, the unstaged diff; a blank combined diff yields
the fixed literal message. -/
def make_git_prompt (staged_only : Bool) (cachedDiff workingDiff : String) : String :=
  let diff := cachedDiff ++ (if staged_only then "" else workingDiff)
  if pyStrip diff = "" then "No Git changes detected."
  else GIT_A ++ diff ++ GIT_B

/-- The raw context whose size drives the strategy decision: tree, newline,
task, then every collected file content appended, with any read failure
swallowed by the bare except and contributing nothing. -/
def full_context_text (tree task : String) (files : List FileInput) : String :=
  files.foldl
    (fun acc f =>
      acc ++
        (match f.read with
        | .ok c => c
        | _ => ""))
    (tree ++ "\n" ++ task)

/-- The strategy decision of the assist command: full-context prompt when
the estimate is strictly below the threshold, discovery prompt otherwise.
count_tokens is called with its default model argument "gpt-4". -/
def assistBranch (tk : Tokenizer) (threshold : Nat) (task tree : String)
    (files : List FileInput) : String :=
  if count_tokens tk (full_context_text tree task files) "gpt-4" < threshold then
    make_full_context_prompt task tree files
  else
    make_discovery_prompt task tree

/-- Modelled from the spec: fnmatch-style matching of one glob pattern
against one path segment, with * matching any run of characters and ?
matching one character. The fuel argument only makes the recursion
structural; the wrapper supplies a bound that cannot be exhausted. -/
def segMatchF : Nat → List Char → List Char → Bool
  | 0, _, _ => false
  | _ + 1, [], [] => true
  | _ + 1, [], _ :: _ => false
  | fuel + 1, '*' :: ps, [] => segMatchF fuel ps []
  | fuel + 1, '*' :: ps, c :: cs =>
    segMatchF fuel ps (c :: cs) || segMatchF fuel ('*' :: ps) cs
  | fuel + 1, '?' :: ps, _ :: cs => segMatchF fuel ps cs
  | _ + 1, _ :: _, [] => false
  | fuel + 1, p :: ps, c :: cs => p = c && segMatchF fuel ps cs

def segMatch (p s : List Char) : Bool := segMatchF (p.length + s.length + 1) p s

/-- Modelled from the spec: matching a slash-split glob pattern against the
segments of a relative path, where a double-star pattern segment matches
across any number of path segments. -/
def globSegsF : Nat → List String → List String → Bool
  | 0, _, _ => false
  | _ + 1, [], [] => true
  | _ + 1, [], _ :: _ => false
  | fuel + 1, p :: ps, segs =>
    if p = "**" then
      globSegsF fuel ps segs ||
        (match segs with
        | [] => false
        | _ :: tl => globSegsF fuel (p :: ps) tl)
    else
      match segs with
      | [] => false
      | s :: ss => segMatch p.data s.data && globSegsF fuel ps ss

def globSegs (ps segs : List String) : Bool :=
  globSegsF (ps.length + segs.length + 1) ps segs

/-- Modelled from the spec: whether one gitignore pattern (already stripped
of negation) matches a relative path; a pattern with a leading slash is
anchored to the root, an unanchored pattern matches at any directory
depth. -/
def patMatchesPath (pat : String) (parts : List String) : Bool :=
  let anchored := pyStartsWith pat '/'
  let core : String := if anchored then ⟨pat.data.drop 1⟩ else pat
  let psegs := splitSlash core
  globSegs (if anchored then psegs else "**" :: psegs) parts

/-- Modelled from the spec: the ignored state of one path under an ordered
pattern list, later patterns winning and a leading ! negating
(un-ignoring). -/
def matchedState (pats : List String) (parts : List String) : Bool :=
  pats.foldl
    (fun acc pat =>
      if pyStartsWith pat '!' then
        if patMatchesPath ⟨pat.data.drop 1⟩ parts then false else acc
      else if patMatchesPath pat parts then true else acc)
    false

/-- Modelled from the spec: a gitignore-compliant matcher excludes a path
when the path itself or any of its ancestor directories ends up ignored,
since a directory matching a pattern ignores its entire subtree. -/
def gitignoreExcludes (pats : List String) (parts : List String) : Bool :=
  parts.inits.any (fun q => !q.isEmpty && matchedState pats q)

/-- A concrete tokenizer instance with an empty registry. -/
def tkW : Tokenizer where
  encodingFor := fun _ => none
  defaultEncoding := fun s => s.data.map Char.toNat
  default_empty := rfl
  registry_empty := fun _ _ h => Option.noConfusion h

/-- The block rendered for one requested file when its read does not
raise: content on success, the visible placeholder otherwise. -/
def filesBlockText (pr : List String × ReadResult) : String :=
  match pr.2 with
  | .ok c => "## `" ++ joinSlash pr.1 ++ "`:\n```\n" ++ pyStrip c ++ "\n```"
  | _ => "## `" ++ joinSlash pr.1 ++ "`:\n```\nError: Could not read this file.\n```"

/-- A directory entry whose listing raises PermissionError. -/
def entryUnreadableDir : FSEntry → Bool
  | .dir _ false _ => true
  | _ => false

/-! ## Theorems -/

theorem charsLt_asymm : ∀ a b, charsLt a b = true → charsLt b a = true → False := by
  intro a
  induction a with
  | nil => intro b h1 h2; cases b <;> simp [charsLt] at h1 h2
  | cons c cs ih =>
    intro b h1 h2
    cases b with
    | nil => simp [charsLt] at h1
    | cons d ds =>
      simp [charsLt] at h1 h2
      rcases h1 with h1 | ⟨he1, h1⟩
      · rcases h2 with h2 | ⟨he2, h2⟩
        · exact absurd h2 (not_lt_of_lt h1)
        · exact absurd (he2 ▸ h1) (lt_irrefl d)
      · rcases h2 with h2 | ⟨he2, h2⟩
        · exact absurd (he1 ▸ h2) (lt_irrefl d)
        · exact ih ds h1 h2

theorem charsLt_trans : ∀ a b c, charsLt a b = true → charsLt b c = true →
    charsLt a c = true := by
  intro a
  induction a with
  | nil =>
    intro b c h1 h2
    cases b with
    | nil => exact h2
    | cons d ds =>
      cases c with
      | nil => simp [charsLt] at h2
      | cons e es => simp [charsLt]
  | cons x xs ih =>
    intro b c h1 h2
    cases b with
    | nil => simp [charsLt] at h1
    | cons d ds =>
      cases c with
      | nil => simp [charsLt] at h2
      | cons e es =>
        simp [charsLt] at h1 h2 ⊢
        rcases h1 with h1 | ⟨he1, h1⟩
        · rcases h2 with h2 | ⟨he2, h2⟩
          · exact Or.inl (h1.trans h2)
          · exact Or.inl (he2 ▸ h1)
        · rcases h2 with h2 | ⟨he2, h2⟩
          · exact Or.inl (he1 ▸ h2)
          · exact Or.inr ⟨he1.trans he2, ih ds es h1 h2⟩

theorem charsLt_connex : ∀ a b, charsLt a b = false → charsLt b a = false → a = b := by
  intro a
  induction a with
  | nil =>
    intro b h1 _
    cases b with
    | nil => rfl
    | cons d ds => simp [charsLt] at h1
  | cons c cs ih =>
    intro b h1 h2
    cases b with
    | nil => simp [charsLt] at h2
    | cons d ds =>
      simp [charsLt] at h1 h2
      have he : c = d := le_antisymm h2.1 h1.1
      have h1' := h1.2 he
      have h2' := h2.2 he.symm
      rw [he, ih ds h1' h2']

theorem charsLe_trans : ∀ a b c : List Char, charsLt b a = false → charsLt c b = false →
    charsLt c a = false := by
  intro a b c hba hcb
  cases hca : charsLt c a with
  | false => rfl
  | true =>
    exfalso
    cases hbc : charsLt b c with
    | true =>
      have h := charsLt_trans b c a hbc hca
      rw [hba] at h
      cases h
    | false =>
      have h := charsLt_connex b c hbc hcb
      rw [h] at hba
      rw [hba] at hca
      cases hca

theorem charsLe_total : ∀ a b : List Char, charsLt b a = false ∨ charsLt a b = false := by
  intro a b
  cases h : charsLt b a with
  | false => exact Or.inl rfl
  | true =>
    cases h2 : charsLt a b with
    | false => exact Or.inr rfl
    | true => exact (charsLt_asymm _ _ h h2).elim

example : is_ignored ["venv", "a.py"] "proj" DEFAULT_IGNORE_DIRS DEFAULT_IGNORE_FILES = true := by
  decide

example : is_ignored ["src", "a.py"] "proj" DEFAULT_IGNORE_DIRS DEFAULT_IGNORE_FILES = false := by
  decide

example : load_gitignore_patterns ["# comment", "", "  *.log  ", "build/"] = ["*.log", "build"] := by
  decide

example : pathJoinName "proj" "/build" = "build" := by decide

example : pathJoinName "proj" "foo/bar/" = "bar" := by decide

theorem strLe_total (a b : String) : strLe a b = true ∨ strLe b a = true := by
  unfold strLe strLt
  rcases charsLe_total a.data b.data with h | h
  · exact Or.inl (by simp [h])
  · exact Or.inr (by simp [h])

theorem strLe_trans {a b c : String} (hab : strLe a b = true) (hbc : strLe b c = true) :
    strLe a c = true := by
  unfold strLe strLt at *
  simp only [Bool.not_eq_true'] at hab hbc ⊢
  exact charsLe_trans a.data b.data c.data hab hbc

theorem entryLe_isTotal : IsTotal FSEntry entryLe := by
  constructor
  intro a b
  unfold entryLe
  cases ha : entryIsFile a <;> cases hb : entryIsFile b
  · rcases strLe_total (pyLower (entryName a)) (pyLower (entryName b)) with h | h
    · exact Or.inl (Or.inr ⟨rfl, h⟩)
    · exact Or.inr (Or.inr ⟨rfl, h⟩)
  · exact Or.inl (Or.inl ⟨rfl, rfl⟩)
  · exact Or.inr (Or.inl ⟨rfl, rfl⟩)
  · rcases strLe_total (pyLower (entryName a)) (pyLower (entryName b)) with h | h
    · exact Or.inl (Or.inr ⟨rfl, h⟩)
    · exact Or.inr (Or.inr ⟨rfl, h⟩)

theorem entryLe_isTrans : IsTrans FSEntry entryLe := by
  constructor
  intro a b c hab hbc
  unfold entryLe at *
  rcases hab with ⟨h1, h2⟩ | ⟨h1, h2⟩ <;> rcases hbc with ⟨h3, h4⟩ | ⟨h3, h4⟩
  · rw [h2] at h3; cases h3
  · exact Or.inl ⟨h1, h3 ▸ h2⟩
  · exact Or.inl ⟨h1 ▸ h3, h4⟩
  · exact Or.inr ⟨h1.trans h3, strLe_trans h2 h4⟩

theorem charsLt_irrefl : ∀ a : List Char, charsLt a a = false := by
  intro a
  induction a with
  | nil => rfl
  | cons c cs ih => simp [charsLt, ih]

theorem strLt_asymm {a b : String} (h1 : strLt a b = true) (h2 : strLt b a = true) : False :=
  charsLt_asymm a.data b.data h1 h2

theorem strLt_trans {a b c : String} (h1 : strLt a b = true) (h2 : strLt b c = true) :
    strLt a c = true :=
  charsLt_trans a.data b.data c.data h1 h2

theorem strLt_irrefl (a : String) : strLt a a = false :=
  charsLt_irrefl a.data

theorem strLt_connex_eq {a b : String} (h1 : strLt a b = false) (h2 : strLt b a = false) :
    a = b := by
  have h := charsLt_connex a.data b.data h1 h2
  cases a
  cases b
  exact congrArg String.mk h

theorem partsLt_asymm : ∀ a b, partsLt a b = true → partsLt b a = true → False := by
  intro a
  induction a with
  | nil =>
    intro b h1 h2
    cases b <;> simp [partsLt] at h1 h2
  | cons c cs ih =>
    intro b h1 h2
    cases b with
    | nil => simp [partsLt] at h1
    | cons d ds =>
      simp [partsLt] at h1 h2
      rcases h1 with h1 | ⟨he1, h1⟩
      · rcases h2 with h2 | ⟨he2, h2⟩
        · exact strLt_asymm h1 h2
        · rw [he2] at h1
          rw [strLt_irrefl] at h1
          cases h1
      · rcases h2 with h2 | ⟨he2, h2⟩
        · rw [he1] at h2
          rw [strLt_irrefl] at h2
          cases h2
        · exact ih ds h1 h2

theorem partsLt_trans : ∀ a b c, partsLt a b = true → partsLt b c = true →
    partsLt a c = true := by
  intro a
  induction a with
  | nil =>
    intro b c h1 h2
    cases b with
    | nil => exact h2
    | cons d ds =>
      cases c with
      | nil => simp [partsLt] at h2
      | cons e es => simp [partsLt]
  | cons x xs ih =>
    intro b c h1 h2
    cases b with
    | nil => simp [partsLt] at h1
    | cons d ds =>
      cases c with
      | nil => simp [partsLt] at h2
      | cons e es =>
        simp [partsLt] at h1 h2 ⊢
        rcases h1 with h1 | ⟨he1, h1⟩
        · rcases h2 with h2 | ⟨he2, h2⟩
          · exact Or.inl (strLt_trans h1 h2)
          · exact Or.inl (he2 ▸ h1)
        · rcases h2 with h2 | ⟨he2, h2⟩
          · exact Or.inl (he1 ▸ h2)
          · exact Or.inr ⟨he1.trans he2, ih ds es h1 h2⟩

theorem partsLt_connex : ∀ a b, partsLt a b = false → partsLt b a = false → a = b := by
  intro a
  induction a with
  | nil =>
    intro b h1 _
    cases b with
    | nil => rfl
    | cons d ds => simp [partsLt] at h1
  | cons c cs ih =>
    intro b h1 h2
    cases b with
    | nil => simp [partsLt] at h2
    | cons d ds =>
      simp [partsLt] at h1 h2
      have he : c = d := strLt_connex_eq h1.1 h2.1
      have h1' := h1.2 he
      have h2' := h2.2 he.symm
      rw [he, ih ds h1' h2']

theorem partsNLt_trans : ∀ a b c : List String, partsLt b a = false → partsLt c b = false →
    partsLt c a = false := by
  intro a b c hba hcb
  cases hca : partsLt c a with
  | false => rfl
  | true =>
    exfalso
    cases hbc : partsLt b c with
    | true =>
      have h := partsLt_trans b c a hbc hca
      rw [hba] at h
      cases h
    | false =>
      have h := partsLt_connex b c hbc hcb
      rw [h] at hba
      rw [hba] at hca
      cases hca

theorem partsNLt_total : ∀ a b : List String, partsLt b a = false ∨ partsLt a b = false := by
  intro a b
  cases h : partsLt b a with
  | false => exact Or.inl rfl
  | true =>
    cases h2 : partsLt a b with
    | false => exact Or.inr rfl
    | true => exact (partsLt_asymm _ _ h h2).elim

theorem pathLeP_isTotal (rootStr : String) : IsTotal (List String) (pathLeP rootStr) := by
  constructor
  intro a b
  unfold pathLeP partsLe
  rcases partsNLt_total (pathlibParts rootStr ++ a) (pathlibParts rootStr ++ b) with h | h
  · exact Or.inl (by simp [h])
  · exact Or.inr (by simp [h])

theorem pathLeP_isTrans (rootStr : String) : IsTrans (List String) (pathLeP rootStr) := by
  constructor
  intro a b c hab hbc
  unfold pathLeP partsLe at *
  simp only [Bool.not_eq_true'] at hab hbc ⊢
  exact partsNLt_trans (pathlibParts rootStr ++ a) (pathlibParts rootStr ++ b)
    (pathlibParts rootStr ++ c) hab hbc

example :
    build_tree
      (.dir "proj" true
        [.file "b.md", .file "a.py", .dir "build" true [.file "c.py"],
          .dir "src" true [.file "Z.py", .file "q.py"]])
      DEFAULT_IGNORE_DIRS DEFAULT_IGNORE_FILES none =
      .ok ".\n├── src\n│   ├── q.py\n│   └── Z.py\n├── a.py\n└── b.md" := rfl

example :
    collect_project_files "/home/proj"
      (.dir "proj" true
        [.file "b.md", .file "a.py", .dir "build" true [.file "c.py"],
          .dir "src" true [.file "z.py"]])
      DEFAULT_IGNORE_DIRS DEFAULT_IGNORE_FILES none [".py", ".md"] =
      [["a.py"], ["b.md"], ["src", "z.py"]] := by decide

example : gitignoreExcludes ["*.log"] ["app.log"] = true := by decide

example : gitignoreExcludes ["*.log"] ["sub", "app.log"] = true := by decide

example : gitignoreExcludes ["/build"] ["build", "x.py"] = true := by decide

example : gitignoreExcludes ["/build"] ["sub", "build"] = false := by decide

example : gitignoreExcludes ["build", "!build"] ["build"] = false := by decide

example : gitignoreExcludes ["doc/**/x.md"] ["doc", "a", "b", "x.md"] = true := by decide

theorem pyStrip_eq_empty_iff (s : String) :
    pyStrip s = "" ↔ s.data.all isPyWs = true := by
  unfold pyStrip
  constructor
  · intro h
    have hd : ((s.data.dropWhile isPyWs).reverse.dropWhile isPyWs).reverse = [] :=
      congrArg String.data h
    rw [List.reverse_eq_nil_iff, List.dropWhile_eq_nil_iff] at hd
    rw [List.all_eq_true]
    intro x hx
    rcases List.mem_append.1
        ((List.takeWhile_append_dropWhile (p := isPyWs) (l := s.data)) ▸ hx) with h1 | h1
    · exact List.mem_takeWhile_imp h1
    · exact hd x (List.mem_reverse.2 h1)
  · intro h
    have h1 : s.data.dropWhile isPyWs = [] :=
      List.dropWhile_eq_nil_iff.2 (fun x hx => List.all_eq_true.1 h x hx)
    rw [h1]
    rfl

theorem git_template_ne (d : String) :
    GIT_A ++ d ++ GIT_B ≠ "No Git changes detected." := by
  intro h
  have h2 : (GIT_A ++ d ++ GIT_B).data.head? = some 'N' := by
    rw [h]
    decide
  have hA : GIT_A.data = '#' :: "# Full Git Diff\n```diff\n".data := by decide
  rw [String.data_append, String.data_append, hA] at h2
  simp at h2

/-- C8: make_git_prompt returns exactly the literal message when the
combined diff (staged, plus unstaged unless staged_only) is empty or
whitespace-only, and otherwise returns the diff template with the combined
diff embedded. -/
theorem c8_git_prompt_blank (staged_only : Bool) (cachedDiff workingDiff : String) :
    (make_git_prompt staged_only cachedDiff workingDiff = "No Git changes detected." ↔
      (cachedDiff ++ (if staged_only then "" else workingDiff)).data.all isPyWs = true) ∧
    ((cachedDiff ++ (if staged_only then "" else workingDiff)).data.all isPyWs = false →
      make_git_prompt staged_only cachedDiff workingDiff =
        GIT_A ++ (cachedDiff ++ (if staged_only then "" else workingDiff)) ++ GIT_B) := by
  unfold make_git_prompt
  by_cases h : pyStrip (cachedDiff ++ (if staged_only then "" else workingDiff)) = ""
  · rw [if_pos h]
    constructor
    · constructor
      · intro _
        exact (pyStrip_eq_empty_iff _).1 h
      · intro _
        rfl
    · intro habs
      rw [(pyStrip_eq_empty_iff _).1 h] at habs
      cases habs
  · rw [if_neg h]
    constructor
    · constructor
      · intro heq
        exact absurd heq (git_template_ne _)
      · intro hall
        exact absurd ((pyStrip_eq_empty_iff _).2 hall) h
    · intro _
      rfl

/-- Witness for C8: a non-blank diff produces the template, a blank one the
literal. -/
theorem c8_git_prompt_blank_witness :
    make_git_prompt false "" "+x" = GIT_A ++ ("" ++ "+x") ++ GIT_B ∧
    make_git_prompt true " \n" "+x" = "No Git changes detected." :=
  ⟨(c8_git_prompt_blank false "" "+x").2 (by decide),
    (c8_git_prompt_blank true " \n" "+x").1.2 (by decide)⟩

/-- C9: count_tokens falls back to the default encoding whenever the model
name is unrecognized, still returning a number, and returns exactly zero
on empty input text for every model. -/
theorem c9_count_tokens (tk : Tokenizer) (model : String) :
    (tk.encodingFor model = none →
      ∀ text, count_tokens tk text model = intFactor ((tk.defaultEncoding text).length)) ∧
    count_tokens tk "" model = 0 := by
  constructor
  · intro h text
    unfold count_tokens
    rw [h, Option.getD_none]
  · unfold count_tokens
    cases h : tk.encodingFor model with
    | none =>
      rw [Option.getD_none, tk.default_empty]
      rfl
    | some e =>
      rw [Option.getD_some, tk.registry_empty model e h]
      rfl

/-- Witness for C9 at a concrete tokenizer and an unrecognized model. -/
theorem c9_count_tokens_witness :
    count_tokens tkW "ab" "unknown-model" =
      intFactor ((tkW.defaultEncoding "ab").length) ∧
    count_tokens tkW "" "unknown-model" = 0 :=
  ⟨(c9_count_tokens tkW "unknown-model").1 rfl "ab", (c9_count_tokens tkW "unknown-model").2⟩

/-- C3: the strategy decision is a strict comparison: an estimate strictly
below the threshold yields the full-context prompt, an estimate equal to
or above the threshold yields the discovery prompt. -/
theorem c3_threshold_strict (tk : Tokenizer) (threshold : Nat) (task tree : String)
    (files : List FileInput) :
    (count_tokens tk (full_context_text tree task files) "gpt-4" < threshold →
      assistBranch tk threshold task tree files = make_full_context_prompt task tree files) ∧
    (threshold ≤ count_tokens tk (full_context_text tree task files) "gpt-4" →
      assistBranch tk threshold task tree files = make_discovery_prompt task tree) := by
  constructor
  · intro h
    unfold assistBranch
    rw [if_pos h]
  · intro h
    unfold assistBranch
    rw [if_neg (not_lt.mpr h)]

/-- Witness for C3: an estimate exactly equal to the threshold selects the
discovery prompt. -/
theorem c3_threshold_strict_witness :
    count_tokens tkW (full_context_text "." "t" []) "gpt-4" = 3 ∧
    assistBranch tkW 3 "t" "." [] = make_discovery_prompt "t" "." :=
  ⟨rfl, (c3_threshold_strict tkW 3 "t" "." []).2 (by decide)⟩

/-- C10: a segment equal to the name of a configured ignore directory makes
the path ignored; dir-name ignoring is closed under extending the path, so
every descendant of a dir-name-ignored path is ignored too; file-name
ignoring depends only on the final component, and a concrete instance
shows it is not inherited by descendants. -/
theorem c10_dir_ignore_inherited :
    (∀ (relParts : List String) (rootName : String) (ignore_dirs ignore_files : List String)
      (part : String), part ∈ relParts →
        part ∈ ignore_dirs.map (pathJoinName rootName) →
        is_ignored relParts rootName ignore_dirs ignore_files = true) ∧
    (∀ (relParts ext : List String) (rootName : String) (ignore_dirs : List String),
      is_dir_ignored relParts rootName ignore_dirs = true →
        is_dir_ignored (relParts ++ ext) rootName ignore_dirs = true ∧
          ∀ ignore_files, is_ignored (relParts ++ ext) rootName ignore_dirs ignore_files = true) ∧
    (∀ (p q : List String) (rootName : String) (ignore_files : List String),
      relName p = relName q →
        is_file_ignored p rootName ignore_files = is_file_ignored q rootName ignore_files) ∧
    (is_ignored ["prompt.txt"] "proj" [] DEFAULT_IGNORE_FILES = true ∧
      is_ignored ["prompt.txt", "nested.py"] "proj" [] DEFAULT_IGNORE_FILES = false) := by
  refine ⟨?_, ?_, ?_, by decide, by decide⟩
  · intro relParts rootName ignore_dirs ignore_files part hmem hpat
    unfold is_ignored is_dir_ignored
    have h : relParts.any
        (fun part => (ignore_dirs.map (pathJoinName rootName)).contains part) = true := by
      rw [List.any_eq_true]
      exact ⟨part, hmem, List.elem_iff.2 hpat⟩
    rw [h]
    rfl
  · intro relParts ext rootName ignore_dirs h
    have h2 : is_dir_ignored (relParts ++ ext) rootName ignore_dirs = true := by
      unfold is_dir_ignored at h ⊢
      rw [List.any_append, h]
      rfl
    refine ⟨h2, fun ignore_files => ?_⟩
    unfold is_ignored
    rw [h2]
    rfl
  · intro p q rootName ignore_files h
    unfold is_file_ignored
    rw [h]

/-- Witness for C10: the default ignore directory venv ignores a file
inside it and every deeper descendant. -/
theorem c10_dir_ignore_inherited_witness :
    is_ignored ["venv", "a.py"] "proj" DEFAULT_IGNORE_DIRS [] = true ∧
    is_dir_ignored (["venv"] ++ ["sub", "deep.py"]) "proj" DEFAULT_IGNORE_DIRS = true :=
  ⟨c10_dir_ignore_inherited.1 ["venv", "a.py"] "proj" DEFAULT_IGNORE_DIRS [] "venv"
      (by decide) (by decide),
    (c10_dir_ignore_inherited.2.1 ["venv"] ["sub", "deep.py"] "proj" DEFAULT_IGNORE_DIRS
      (by decide)).1⟩

/-- C1 counterexample: with the gitignore pattern *.log loaded, a
gitignore-compliant matcher excludes app.log, but _is_ignored does not
ignore it (the pattern is compared literally, never as a glob), so
_is_ignored does not agree with gitignore semantics on the loaded
patterns. -/
theorem c1_counterexample :
    is_ignored ["app.log"] "proj"
        (DEFAULT_IGNORE_DIRS ++ load_gitignore_patterns ["*.log"]) DEFAULT_IGNORE_FILES =
      false ∧
    gitignoreExcludes (load_gitignore_patterns ["*.log"]) ["app.log"] = true := by
  constructor
  · decide
  · decide

/-- C1 (amended): _is_ignored treats every loaded pattern as a literal
name: a path is ignored exactly when some segment equals the pathlib
basename of a configured directory pattern or its final component equals
the basename of a configured file pattern; glob syntax, anchoring and
negation are not interpreted, and in particular appending any further
pattern (including a !-prefixed one) can never un-ignore a path. -/
theorem c1_literal_name_matching :
    (∀ (lines relParts : List String) (rootName : String),
      is_ignored relParts rootName (DEFAULT_IGNORE_DIRS ++ load_gitignore_patterns lines)
          DEFAULT_IGNORE_FILES = true ↔
        ((∃ part ∈ relParts,
            part ∈ (DEFAULT_IGNORE_DIRS ++ load_gitignore_patterns lines).map
              (pathJoinName rootName)) ∨
          relName relParts ∈ DEFAULT_IGNORE_FILES.map (pathJoinName rootName))) ∧
    (∀ (relParts : List String) (rootName pat : String) (ignore_dirs ignore_files : List String),
      is_ignored relParts rootName ignore_dirs ignore_files = true →
        is_ignored relParts rootName (ignore_dirs ++ [pat]) ignore_files = true) := by
  constructor
  · intro lines relParts rootName
    unfold is_ignored is_dir_ignored is_file_ignored
    simp [List.any_eq_true, List.elem_iff]
  · intro relParts rootName pat ignore_dirs ignore_files h
    unfold is_ignored is_dir_ignored is_file_ignored at h ⊢
    rcases Bool.or_eq_true_iff.1 h with h1 | h1
    · rw [List.any_eq_true] at h1
      rcases h1 with ⟨part, hmem, hpat⟩
      apply Bool.or_eq_true_iff.2
      left
      rw [List.any_eq_true]
      refine ⟨part, hmem, ?_⟩
      rw [List.elem_iff] at hpat ⊢
      rw [List.map_append]
      exact List.mem_append.2 (Or.inl hpat)
    · apply Bool.or_eq_true_iff.2
      right
      exact h1

/-- Witness for C1 (amended): the literal characterization at a concrete
path, and monotonicity under appending a negation pattern. -/
theorem c1_literal_name_matching_witness :
    ((∃ part ∈ ["__pycache__", "m.py"],
        part ∈ (DEFAULT_IGNORE_DIRS ++ load_gitignore_patterns ["out/"]).map
          (pathJoinName "proj")) ∨
      relName ["__pycache__", "m.py"] ∈ DEFAULT_IGNORE_FILES.map (pathJoinName "proj")) ∧
    is_ignored ["out"] "proj" (["out"] ++ ["!out"]) [] = true :=
  ⟨(c1_literal_name_matching.1 ["out/"] ["__pycache__", "m.py"] "proj").1 (by decide),
    c1_literal_name_matching.2 ["out"] "proj" "!out" ["out"] [] (by decide)⟩

/-- C4: the child entries that build_tree lists for one directory are
pairwise ordered by the composite key: a directory never follows a file,
and entries with the same is-file status are in case-insensitive
alphabetical order of their names. -/
theorem c4_listing_sorted (rootName : String) (ignore_dirs ignore_files : List String)
    (only_from : Option (List String)) (relParts : List String) (children : List FSEntry) :
    (sortedFilteredChildren rootName ignore_dirs ignore_files only_from relParts
        children).Pairwise
      (fun a b =>
        (entryIsFile a = false ∧ entryIsFile b = true) ∨
          (entryIsFile a = entryIsFile b ∧
            strLe (pyLower (entryName a)) (pyLower (entryName b)) = true)) := by
  haveI := entryLe_isTotal
  haveI := entryLe_isTrans
  exact List.Pairwise.sublist (List.filter_sublist _)
    (List.sorted_insertionSort entryLe children)

/-- C5 counterexample: with a file foo-bar.py and a directory foo holding
x.py at the root, sorted(project_files) compares Path parts lists, so
collect_project_files returns foo/x.py before foo-bar.py; but the
rendered path string of foo/x.py is the larger one (the slash, code point
47, exceeds the hyphen, 45), so the returned sequence is not in ascending
order of the full path rendered as a string. -/
theorem c5_counterexample :
    collect_project_files "/home/proj"
        (.dir "proj" true [.file "foo-bar.py", .dir "foo" true [.file "x.py"]])
        [] [] none [".py"] = [["foo", "x.py"], ["foo-bar.py"]] ∧
    strLe (renderAbs "/home/proj" ["foo", "x.py"]) (renderAbs "/home/proj" ["foo-bar.py"]) =
      false := by
  refine ⟨by decide, by decide⟩

/-- C5 (amended): the sequence collect_project_files returns is sorted
ascending by the Python Path order, which compares the case-normalized
parts lists of the full paths rather than their rendered strings (the two
orders differ when a file name orders around the slash character); as a
pure function of the filesystem snapshot the result is identical across
repeated runs on an unchanged filesystem. -/
theorem c5_collect_sorted (rootStr : String) (root : FSEntry)
    (ignore_dirs ignore_files : List String) (only_from : Option (List String))
    (extensions : List String) :
    (collect_project_files rootStr root ignore_dirs ignore_files only_from
        extensions).Pairwise
      (fun a b =>
        partsLe (pathlibParts rootStr ++ a) (pathlibParts rootStr ++ b) = true) ∧
    collect_project_files rootStr root ignore_dirs ignore_files only_from extensions =
      collect_project_files rootStr root ignore_dirs ignore_files only_from extensions := by
  haveI := pathLeP_isTotal rootStr
  haveI := pathLeP_isTrans rootStr
  exact ⟨List.sorted_insertionSort (pathLeP rootStr) _, rfl⟩

theorem fullContextBlocks_drop (xs ys : List FileInput) (f : FileInput)
    (h : f.isDir = true ∨ readFails f.read = true) :
    fullContextBlocks (xs ++ f :: ys) = fullContextBlocks (xs ++ ys) := by
  induction xs with
  | nil =>
    simp only [List.nil_append]
    rcases h with h | h
    · simp [fullContextBlocks, h]
    · cases hd : f.isDir with
      | true => simp [fullContextBlocks, hd]
      | false =>
        cases hr : f.read with
        | ok c =>
          rw [hr] at h
          cases h
        | unicodeError => simp [fullContextBlocks, hd, hr]
        | fileNotFound => simp [fullContextBlocks, hd, hr]
        | permissionError => simp [fullContextBlocks, hd, hr]
  | cons x xs ih =>
    simp only [List.cons_append]
    cases hd : x.isDir with
    | true => simp [fullContextBlocks, hd, ih]
    | false =>
      cases hr : x.read with
      | ok c => simp [fullContextBlocks, hd, hr, ih]
      | unicodeError => simp [fullContextBlocks, hd, hr, ih]
      | fileNotFound => simp [fullContextBlocks, hd, hr, ih]
      | permissionError => simp [fullContextBlocks, hd, hr, ih]

theorem filesBlocksE_ok (files : List (List String × ReadResult))
    (h : ∀ pr ∈ files, pr.2 ≠ ReadResult.permissionError) :
    filesBlocksE files = .ok (files.map filesBlockText) := by
  induction files with
  | nil => rfl
  | cons f rest ih =>
    have hf := h f (List.mem_cons_self ..)
    have hrest : ∀ pr ∈ rest, pr.2 ≠ ReadResult.permissionError := fun pr hpr =>
      h pr (List.mem_cons_of_mem _ hpr)
    cases hr : f.2 with
    | ok c =>
      unfold filesBlocksE
      rw [ih hrest]
      simp only [hr, List.map_cons, filesBlockText]
      rfl
    | unicodeError =>
      unfold filesBlocksE
      rw [ih hrest]
      simp only [hr, List.map_cons, filesBlockText]
      rfl
    | fileNotFound =>
      unfold filesBlocksE
      rw [ih hrest]
      simp only [hr, List.map_cons, filesBlockText]
      rfl
    | permissionError => exact absurd hr hf

theorem filesBlocksE_perm (xs ys : List (List String × ReadResult)) (p : List String) :
    filesBlocksE (xs ++ (p, ReadResult.permissionError) :: ys) = .error () := by
  induction xs with
  | nil => rfl
  | cons x xs ih =>
    simp only [List.cons_append]
    unfold filesBlocksE
    cases hb : filesBlock x.1 x.2 with
    | error e =>
      cases e
      rfl
    | ok b =>
      rw [ih]
      rfl

/-- C7 (amended): a file whose read fails never aborts
make_full_context_prompt, which silently omits the file (no placeholder:
removing the unreadable file gives the identical prompt); make_files_prompt
completes with a visible placeholder block for decode failures and
disappeared files, but an uncaught permission error aborts it. -/
theorem c7_read_failures :
    (∀ (task tree : String) (xs ys : List FileInput) (f : FileInput),
      readFails f.read = true →
        make_full_context_prompt task tree (xs ++ f :: ys) =
          make_full_context_prompt task tree (xs ++ ys)) ∧
    (∀ (files : List (List String × ReadResult)),
      (∀ pr ∈ files, pr.2 ≠ ReadResult.permissionError) →
        make_files_prompt files = .ok (pyJoin "\n\n" (files.map filesBlockText))) ∧
    (∀ (xs ys : List (List String × ReadResult)) (p : List String),
      make_files_prompt (xs ++ (p, ReadResult.permissionError) :: ys) = .error ()) := by
  refine ⟨?_, ?_, ?_⟩
  · intro task tree xs ys f h
    unfold make_full_context_prompt
    rw [fullContextBlocks_drop xs ys f (Or.inr h)]
  · intro files h
    unfold make_files_prompt
    rw [filesBlocksE_ok files h]
    rfl
  · intro xs ys p
    unfold make_files_prompt
    rw [filesBlocksE_perm]
    rfl

/-- C7 counterexample: a permission error on reading one listed file
aborts make_files_prompt with the uncaught exception instead of producing
a prompt with a placeholder. -/
theorem c7_counterexample :
    make_files_prompt [(["src", "a.py"], ReadResult.permissionError)] = .error () := rfl

/-- Witness for C7 (amended): dropping a file with a decode failure leaves
the full-context prompt unchanged, and a files prompt with a disappeared
file completes with the placeholder. -/
theorem c7_read_failures_witness :
    make_full_context_prompt "t" "." [⟨["bad.py"], false, ReadResult.unicodeError⟩] =
      make_full_context_prompt "t" "." [] ∧
    make_files_prompt [(["gone.py"], ReadResult.fileNotFound)] =
      .ok "## `gone.py`:\n```\nError: Could not read this file.\n```" :=
  ⟨c7_read_failures.1 "t" "." [] [] ⟨["bad.py"], false, ReadResult.unicodeError⟩ rfl,
    c7_read_failures.2.1 [(["gone.py"], ReadResult.fileNotFound)] (by decide)⟩

theorem except_bind_tail_error {α β : Type} (sub : Except Unit α) (g : α → Except Unit β)
    (hg : ∀ a, g a = .error ()) : (sub >>= g) = .error () := by
  cases sub with
  | error e =>
    cases e
    rfl
  | ok a => exact hg a

theorem renderListF_error (rootName : String) (ignore_dirs ignore_files : List String)
    (only_from : Option (List String)) :
    ∀ (fuel : Nat) (relParts : List String) (pfx : String) (l : List FSEntry),
      l.any entryUnreadableDir = true →
      renderListF rootName ignore_dirs ignore_files only_from fuel relParts pfx l =
        .error () := by
  intro fuel
  induction fuel with
  | zero =>
    intro relParts pfx l _
    rfl
  | succ fuel ih =>
    intro relParts pfx l h
    cases l with
    | nil => simp at h
    | cons e rest =>
      cases he : entryUnreadableDir e with
      | true =>
        cases e with
        | file n => simp [entryUnreadableDir] at he
        | dir n readable children =>
          cases readable with
          | true => simp [entryUnreadableDir] at he
          | false => rfl
      | false =>
        have hrest : rest.any entryUnreadableDir = true := by
          rw [List.any_cons, he] at h
          simpa using h
        cases e with
        | file n =>
          unfold renderListF
          rw [ih relParts pfx rest hrest]
          rfl
        | dir n readable children =>
          cases readable with
          | false => simp [entryUnreadableDir] at he
          | true =>
            unfold renderListF
            apply except_bind_tail_error
            intro a
            rw [ih relParts pfx rest hrest]
            rfl

/-- C6 (amended): the source has no handler around the directory listing,
so a permission error on listing any subdirectory that build_tree reaches
propagates and aborts the whole scan with the exception; no tree string is
produced. -/
theorem c6_permission_error_aborts :
    (∀ (rootName : String) (ignore_dirs ignore_files : List String)
      (only_from : Option (List String)) (fuel : Nat) (relParts : List String)
      (pfx : String) (l : List FSEntry),
      l.any entryUnreadableDir = true →
        renderListF rootName ignore_dirs ignore_files only_from fuel relParts pfx l =
          .error ()) ∧
    (∀ (rootName : String) (children : List FSEntry)
      (ignore_dirs ignore_files : List String) (only_from : Option (List String)),
      (sortedFilteredChildren rootName ignore_dirs ignore_files only_from [] children).any
          entryUnreadableDir = true →
        build_tree (.dir rootName true children) ignore_dirs ignore_files only_from =
          .error ()) := by
  constructor
  · intro rootName igd igf onf fuel relParts pfx l h
    exact renderListF_error rootName igd igf onf fuel relParts pfx l h
  · intro rootName children igd igf onf h
    show (do
      let entries ← renderListF rootName igd igf onf
        (fsSize (FSEntry.dir rootName true children)) [] ""
        (sortedFilteredChildren rootName igd igf onf [] children)
      Except.ok (pyJoin "\n" ("." :: List.map Prod.snd entries))) = Except.error ()
    rw [renderListF_error rootName igd igf onf _ [] ""
      (sortedFilteredChildren rootName igd igf onf [] children) h]
    rfl

/-- C6 counterexample: a readable root with one unreadable non-ignored
subdirectory makes build_tree raise (no tree string results), refuting the
claim that a permission error is recovered by treating the subdirectory as
empty. -/
theorem c6_counterexample :
    build_tree
        (.dir "proj" true [.file "a.py", .dir "locked" false [.file "hidden.py"]])
        DEFAULT_IGNORE_DIRS DEFAULT_IGNORE_FILES none = .error () := rfl

/-- Witness for C6 (amended) at a concrete filesystem. -/
theorem c6_permission_error_aborts_witness :
    (sortedFilteredChildren "proj" DEFAULT_IGNORE_DIRS DEFAULT_IGNORE_FILES none []
        [FSEntry.file "b.py", FSEntry.dir "secret" false []]).any entryUnreadableDir = true ∧
    build_tree (.dir "proj" true [FSEntry.file "b.py", FSEntry.dir "secret" false []])
        DEFAULT_IGNORE_DIRS DEFAULT_IGNORE_FILES none = .error () :=
  ⟨by decide,
    c6_permission_error_aborts.2 "proj" [FSEntry.file "b.py", FSEntry.dir "secret" false []]
      DEFAULT_IGNORE_DIRS DEFAULT_IGNORE_FILES none (by decide)⟩

theorem keepEntry_not_ignored {rootName : String} {ignore_dirs ignore_files : List String}
    {only_from : Option (List String)} {relParts : List String} {e : FSEntry}
    (h : keepEntry rootName ignore_dirs ignore_files only_from relParts e = true) :
    is_ignored (relParts ++ [entryName e]) rootName ignore_dirs ignore_files = false := by
  unfold keepEntry at h
  rcases Bool.and_eq_true_iff.1 h with ⟨h1, _⟩
  rw [Bool.not_eq_true'] at h1
  exact h1

theorem renderListF_entries_not_ignored (rootName : String)
    (ignore_dirs ignore_files : List String) (only_from : Option (List String)) :
    ∀ (fuel : Nat) (l : List FSEntry) (relParts : List String) (pfx : String)
      (res : List (List String × String)),
      (∀ e ∈ l, keepEntry rootName ignore_dirs ignore_files only_from relParts e = true) →
      renderListF rootName ignore_dirs ignore_files only_from fuel relParts pfx l = .ok res →
      ∀ pr ∈ res, is_ignored pr.1 rootName ignore_dirs ignore_files = false := by
  intro fuel
  induction fuel with
  | zero =>
    intro l relParts pfx res _ hok
    exact absurd hok (by simp [renderListF])
  | succ fuel ih =>
    intro l relParts pfx res hl hok
    cases l with
    | nil =>
      rw [show renderListF rootName ignore_dirs ignore_files only_from (fuel + 1) relParts
          pfx [] = .ok [] from rfl] at hok
      cases hok
      intro pr hpr
      cases hpr
    | cons e rest =>
      have hrest : ∀ e' ∈ rest,
          keepEntry rootName ignore_dirs ignore_files only_from relParts e' = true :=
        fun e' he' => hl e' (List.mem_cons_of_mem _ he')
      cases e with
      | file n =>
        unfold renderListF at hok
        cases htail : renderListF rootName ignore_dirs ignore_files only_from fuel relParts
            pfx rest with
        | error u => rw [htail] at hok; cases hok
        | ok tailres =>
          rw [htail] at hok
          have hres : res = (relParts ++ [n],
              pfx ++ (if rest.isEmpty then "└── " else "├── ") ++ n) :: tailres := by
            cases hok
            rfl
          subst hres
          intro pr hpr
          rcases List.mem_cons.1 hpr with hpr | hpr
          · subst hpr
            exact keepEntry_not_ignored (hl (.file n) (List.mem_cons_self _ _))
          · exact ih rest relParts pfx tailres hrest htail pr hpr
      | dir n readable children =>
        cases readable with
        | false =>
          have := hl (.dir n false children) (List.mem_cons_self _ _)
          rw [show renderListF rootName ignore_dirs ignore_files only_from (fuel + 1)
              relParts pfx (FSEntry.dir n false children :: rest) = .error () from rfl] at hok
          cases hok
        | true =>
          unfold renderListF at hok
          cases hsub : renderListF rootName ignore_dirs ignore_files only_from fuel
              (relParts ++ [n])
              (pfx ++ (if rest.isEmpty then "    " else "│   "))
              (sortedFilteredChildren rootName ignore_dirs ignore_files only_from
                (relParts ++ [n]) children) with
          | error u => rw [hsub] at hok; cases hok
          | ok subres =>
            rw [hsub] at hok
            cases htail : renderListF rootName ignore_dirs ignore_files only_from fuel
                relParts pfx rest with
            | error u => rw [htail] at hok; cases hok
            | ok tailres =>
              rw [htail] at hok
              have hres : res = (relParts ++ [n],
                  pfx ++ (if rest.isEmpty then "└── " else "├── ") ++ n) ::
                    (subres ++ tailres) := by
                cases hok
                rfl
              subst hres
              intro pr hpr
              rcases List.mem_cons.1 hpr with hpr | hpr
              · subst hpr
                exact keepEntry_not_ignored (hl (.dir n true children) (List.mem_cons_self _ _))
              · rcases List.mem_append.1 hpr with hpr | hpr
                · refine ih _ (relParts ++ [n]) _ subres ?_ hsub pr hpr
                  intro e' he'
                  exact (List.mem_filter.1 he').2
                · exact ih rest relParts pfx tailres hrest htail pr hpr

theorem mem_collect_fold (rootName : String) (ignore_dirs ignore_files : List String)
    (only_from : Option (List String)) (extensions : List String) :
    ∀ (triples : List (List String × List String × List String))
      (acc : List (List String)) (f : List String),
      f ∈ triples.foldl
        (collectStep rootName ignore_dirs ignore_files only_from extensions) acc →
      f ∈ acc ∨ is_ignored f rootName ignore_dirs ignore_files = false := by
  intro triples
  induction triples with
  | nil =>
    intro acc f h
    exact Or.inl h
  | cons t ts ih =>
    intro acc f h
    rw [List.foldl_cons] at h
    rcases ih _ f h with h1 | h1
    · unfold collectStep at h1
      by_cases hc : (is_ignored t.1 rootName ignore_dirs ignore_files ||
          !in_scope_dir t.1 only_from) = true
      · rw [if_pos hc] at h1
        exact Or.inl h1
      · rw [if_neg hc] at h1
        rcases List.mem_append.1 h1 with h2 | h2
        · exact Or.inl h2
        · rcases List.mem_map.1 h2 with ⟨fname, hmem, heq⟩
          have hfilter := (List.mem_filter.1 hmem).2
          rcases Bool.and_eq_true_iff.1 hfilter with ⟨_, hnotign⟩
          rw [Bool.not_eq_true'] at hnotign
          right
          rw [← heq]
          exact hnotign
    · exact Or.inr h1

/-- C2 (amended): an ignored directory is never listed by build_tree (every
rendered entry has a non-ignored relative path, and build_tree recurses
only into listed directories), and collect_project_files returns no
ignored path, hence no path with a segment naming an ignore directory; but
the os.walk traversal of collect_project_files does descend into ignored
directories, merely contributing none of their files (the counterexample
exhibits the descent). -/
theorem c2_ignored_excluded :
    (∀ (rootName : String) (ignore_dirs ignore_files : List String)
      (only_from : Option (List String)) (fuel : Nat) (l : List FSEntry)
      (relParts : List String) (pfx : String) (res : List (List String × String)),
      (∀ e ∈ l, keepEntry rootName ignore_dirs ignore_files only_from relParts e = true) →
      renderListF rootName ignore_dirs ignore_files only_from fuel relParts pfx l = .ok res →
      ∀ pr ∈ res, is_ignored pr.1 rootName ignore_dirs ignore_files = false) ∧
    (∀ (rootStr : String) (root : FSEntry) (ignore_dirs ignore_files : List String)
      (only_from : Option (List String)) (extensions : List String) (f : List String),
      f ∈ collect_project_files rootStr root ignore_dirs ignore_files only_from extensions →
      is_ignored f (entryName root) ignore_dirs ignore_files = false ∧
        ∀ seg ∈ f, seg ∉ ignore_dirs.map (pathJoinName (entryName root))) := by
  constructor
  · intro rootName igd igf onf fuel l relParts pfx res hl hok
    exact renderListF_entries_not_ignored rootName igd igf onf fuel l relParts pfx res hl hok
  · intro rootStr root igd igf onf exts f hf
    unfold collect_project_files at hf
    rw [List.mem_insertionSort] at hf
    rcases mem_collect_fold (entryName root) igd igf onf exts _ [] f hf with h1 | h1
    · cases h1
    · refine ⟨h1, ?_⟩
      intro seg hseg hmem
      unfold is_ignored is_dir_ignored at h1
      rcases Bool.or_eq_false_iff.1 h1 with ⟨h2, _⟩
      rw [List.any_eq_false] at h2
      have := h2 seg hseg
      rw [List.elem_iff] at this
      · exact this hmem

/-- C2 counterexample: the directory build is ignored, yet the os.walk
traversal underlying collect_project_files visits build and its nested
subdirectory (it descends into the ignored subtree), even though the
collected files correctly exclude everything under build. -/
theorem c2_counterexample :
    is_ignored ["build"] "proj" DEFAULT_IGNORE_DIRS DEFAULT_IGNORE_FILES = true ∧
    (osWalk []
        (.dir "proj" true
          [.dir "build" true [.dir "inner" true [.file "deep.py"], .file "c.py"],
            .file "a.py"])).map (fun t => t.1) =
      [[], ["build"], ["build", "inner"]] ∧
    collect_project_files "/home/proj"
        (.dir "proj" true
          [.dir "build" true [.dir "inner" true [.file "deep.py"], .file "c.py"],
            .file "a.py"])
        DEFAULT_IGNORE_DIRS DEFAULT_IGNORE_FILES none [".py"] = [["a.py"]] := by
  refine ⟨by decide, by decide, by decide⟩

/-- Witness for C2 (amended) at a concrete filesystem: the filtered
listing of a root whose build subdirectory is ignored keeps only a.py, the
walk renders exactly that entry, and it is not ignored; the collected
files of the same tree are not ignored either. -/
theorem c2_ignored_excluded_witness :
    (∀ e ∈ sortedFilteredChildren "proj" DEFAULT_IGNORE_DIRS DEFAULT_IGNORE_FILES none []
        [FSEntry.dir "build" true [FSEntry.file "c.py"], FSEntry.file "a.py"],
      keepEntry "proj" DEFAULT_IGNORE_DIRS DEFAULT_IGNORE_FILES none [] e = true) ∧
    (∀ pr ∈ [((["a.py"] : List String), "└── a.py")],
      is_ignored pr.1 "proj" DEFAULT_IGNORE_DIRS DEFAULT_IGNORE_FILES = false) ∧
    (∀ f ∈ collect_project_files "/home/proj"
        (.dir "proj" true [FSEntry.dir "build" true [FSEntry.file "c.py"], FSEntry.file "a.py"])
        DEFAULT_IGNORE_DIRS DEFAULT_IGNORE_FILES none [".py"],
      is_ignored f "proj" DEFAULT_IGNORE_DIRS DEFAULT_IGNORE_FILES = false) := by
  refine ⟨by decide, ?_, ?_⟩
  · exact c2_ignored_excluded.1 "proj" DEFAULT_IGNORE_DIRS DEFAULT_IGNORE_FILES none 5
      (sortedFilteredChildren "proj" DEFAULT_IGNORE_DIRS DEFAULT_IGNORE_FILES none []
        [FSEntry.dir "build" true [FSEntry.file "c.py"], FSEntry.file "a.py"])
      [] "" [((["a.py"] : List String), "└── a.py")] (by decide) rfl
  · intro f hf
    exact (c2_ignored_excluded.2 "/home/proj" _ DEFAULT_IGNORE_DIRS DEFAULT_IGNORE_FILES
      none [".py"] f hf).1
